import Mathlib

/-!
Cutefish status bar: window tracker, menu bridge and shell.

A shallow embedding of `src/activity.cpp`, `src/appmenu/appmenumodel.cpp` and
`src/statusbar.cpp`.  Member variables keep their C++ names.  Signals emitted and
calls queued on the event loop are recorded in lists carried by the state, the
window system is an explicit argument of every handler that reads it.
-/

namespace NET

/-- Window types of the window-manager protocol, as returned by
`KWindowInfo::windowType`.  `Unknown` is the value for "no type". -/
inductive WindowType
  | Unknown | Normal | Desktop | Dock | Toolbar | Menu | Dialog | Override | TopMenu
  | Utility | Splash | DropdownMenu | PopupMenu | Tooltip | Notification | ComboBox
  | DNDIcon | OnScreenDisplay | CriticalNotification | AppletPopup
  deriving DecidableEq, Repr

def NormalMask : Nat := 0x1
def DesktopMask : Nat := 0x2
def DockMask : Nat := 0x4
def ToolbarMask : Nat := 0x8
def MenuMask : Nat := 0x10
def DialogMask : Nat := 0x20
def OverrideMask : Nat := 0x40
def TopMenuMask : Nat := 0x80
def UtilityMask : Nat := 0x100
def SplashMask : Nat := 0x200
def DropdownMenuMask : Nat := 0x400
def PopupMenuMask : Nat := 0x800
def TooltipMask : Nat := 0x1000
def NotificationMask : Nat := 0x2000
def ComboBoxMask : Nat := 0x4000
def DNDIconMask : Nat := 0x8000
def OnScreenDisplayMask : Nat := 0x10000
def CriticalNotificationMask : Nat := 0x20000
def AppletPopupMask : Nat := 0x40000
def AllTypesMask : Nat := 0xFFFFFFFF

/-- The mask bit belonging to a window type (`type##Mask`); `Unknown` has none. -/
def WindowType.mask : WindowType → Nat
  | .Unknown => 0
  | .Normal => NormalMask
  | .Desktop => DesktopMask
  | .Dock => DockMask
  | .Toolbar => ToolbarMask
  | .Menu => MenuMask
  | .Dialog => DialogMask
  | .Override => OverrideMask
  | .TopMenu => TopMenuMask
  | .Utility => UtilityMask
  | .Splash => SplashMask
  | .DropdownMenu => DropdownMenuMask
  | .PopupMenu => PopupMenuMask
  | .Tooltip => TooltipMask
  | .Notification => NotificationMask
  | .ComboBox => ComboBoxMask
  | .DNDIcon => DNDIconMask
  | .OnScreenDisplay => OnScreenDisplayMask
  | .CriticalNotification => CriticalNotificationMask
  | .AppletPopup => AppletPopupMask

/-- The library test `NET::typeMatchesMask(type, mask)`: the bit of `type` is in `mask`. -/
def typeMatchesMask (type : WindowType) (mask : Nat) : Bool :=
  (mask &&& type.mask) != 0

/-! Window state flags (`NET::State`). -/

def Modal : Nat := 0x1
def Sticky : Nat := 0x2
def MaxVert : Nat := 0x4
def MaxHoriz : Nat := 0x8
def Max : Nat := MaxVert ||| MaxHoriz
def Shaded : Nat := 0x10
def SkipTaskbar : Nat := 0x20
def SkipPager : Nat := 0x80
def Hidden : Nat := 0x100
def FullScreen : Nat := 0x200
def DemandsAttention : Nat := 0x800

/-- The library rule behind `windowType(supported_types)` for a window that declares
the list `types`: the first declared type that the mask supports, else `Unknown`. -/
def windowTypeOf (types : List WindowType) (supported : Nat) : WindowType :=
  match types.find? (fun t => typeMatchesMask t supported) with
  | some t => t
  | none => .Unknown

end NET

/-- What a `KWindowInfo` object answers for one window: the fields read by the
status bar. -/
structure KWindowInfo where
  valid : Bool
  /-- The answer of `windowType(supported_types)`, by the mask of supported types. -/
  windowType : Nat → NET.WindowType
  /-- The state flags, `state()`. -/
  state : Nat
  transientFor : Nat
  windowClassClass : String
  pid : Int
  visibleName : String

/-- The query `info.hasState(s)`: every flag of `s` is set. -/
def KWindowInfo.hasState (info : KWindowInfo) (s : Nat) : Bool :=
  (info.state &&& s) == s

/-- An entry of the application registry (`CAppItem`): the two fields read here. -/
structure CAppItem where
  localName : String
  icon : String

/-- The window system and the collaborators the window tracker reads. -/
structure WindowSystem where
  /-- Value of `KWindowSystem::activeWindow()`. -/
  activeWindow : Nat
  /-- The answer of `KWindowInfo(wid, ...)`. -/
  info : Nat → KWindowInfo
  /-- The X11 native interface, when present, with its root window. -/
  appRootWindow : Option Nat
  /-- The registry lookup `CApplications::matchItem(pid, windowClass)`. -/
  matchItem : Int → String → Option CAppItem
  /-- The translation function `tr`. -/
  tr : String → String

/-- Signals of `Activity`. -/
inductive ActivitySignal
  | launchPadChanged | titleChanged | iconChanged
  deriving DecidableEq, Repr

/-- The member variables of `Activity`, and the signals it has emitted (oldest first). -/
structure Activity where
  m_launchPad : Bool
  m_title : String
  m_icon : String
  m_pid : Int
  m_windowClass : String
  emitted : List ActivitySignal

/-- The library function `QByteArray::toLower`: the letters A to Z are lower-cased,
every other character is kept. -/
def QByteArray.toLower (s : String) : String :=
  String.mk (s.toList.map Char.toLower)

/-- The file-level constant `blockList`. -/
def blockList : List String := ["cutefish-launcher", "cutefish-statusbar"]

namespace Activity

/-- The mask `ignoreList` built in `isAcceptableWindow`. -/
def ignoreList : Nat :=
  NET.DesktopMask ||| NET.DockMask ||| NET.SplashMask ||| NET.ToolbarMask |||
    NET.MenuMask ||| NET.PopupMenuMask ||| NET.NotificationMask

/-- The mask `normal` built in `isAcceptableWindow`. -/
def normal : Nat :=
  NET.NormalMask ||| NET.DialogMask ||| NET.UtilityMask

/-- The function `Activity::isAcceptableWindow(wid)`. -/
def isAcceptableWindow (ws : WindowSystem) (wid : Nat) : Bool :=
  let info := ws.info wid
  if !info.valid then false
  else if NET.typeMatchesMask (info.windowType NET.AllTypesMask) ignoreList then false
  else if info.hasState NET.SkipTaskbar || info.hasState NET.SkipPager then false
  else
    let root : Nat := match ws.appRootWindow with
      | some r => r
      | none => 0
    let trans := info.transientFor
    if trans == 0 || trans == wid || trans == root then true
    else
      let info2 := ws.info trans
      !NET.typeMatchesMask (info2.windowType NET.AllTypesMask) normal

/-- The helper `Activity::clearTitle`. -/
def clearTitle (a : Activity) : Activity :=
  { a with m_title := "", emitted := a.emitted ++ [.titleChanged] }

/-- The helper `Activity::clearIcon`. -/
def clearIcon (a : Activity) : Activity :=
  { a with m_icon := "", emitted := a.emitted ++ [.iconChanged] }

/-- The slot `Activity::onActiveWindowChanged`. -/
def onActiveWindowChanged (ws : WindowSystem) (a : Activity) : Activity :=
  let info := ws.info ws.activeWindow
  let a := { a with m_launchPad := info.windowClassClass == "cutefish-launcher",
                    emitted := a.emitted ++ [.launchPadChanged] }
  if NET.typeMatchesMask (info.windowType NET.AllTypesMask) NET.DesktopMask then
    { a with m_title := ws.tr "Desktop", m_icon := "",
             emitted := a.emitted ++ [.titleChanged, .iconChanged] }
  else if !isAcceptableWindow ws ws.activeWindow
      || blockList.contains info.windowClassClass then
    clearIcon (clearTitle a)
  else
    let a := { a with m_pid := info.pid, m_windowClass := QByteArray.toLower info.windowClassClass }
    match ws.matchItem a.m_pid a.m_windowClass with
    | some item =>
      let a := { a with m_title := item.localName, emitted := a.emitted ++ [.titleChanged] }
      if a.m_icon != item.icon then
        { a with m_icon := item.icon, emitted := a.emitted ++ [.iconChanged] }
      else a
    | none =>
      let t := info.visibleName
      if t != a.m_title then
        clearIcon { a with m_title := t, emitted := a.emitted ++ [.titleChanged] }
      else a

/-- The getter `Activity::title`. -/
def title (a : Activity) : String := a.m_title

/-- The getter `Activity::icon`. -/
def icon (a : Activity) : String := a.m_icon

end Activity

/-- A window record with every field at its neutral value, used to build examples. -/
def plainWindow : KWindowInfo :=
  { valid := true, windowType := NET.windowTypeOf [.Normal], state := 0, transientFor := 0,
    windowClassClass := "editor", pid := 42, visibleName := "Editor" }

/-- A window system whose every window is `w`, with window 7 in the foreground, an
empty registry and no translation loaded. -/
def oneWindow (w : KWindowInfo) : WindowSystem :=
  { activeWindow := 7, info := fun _ => w, appRootWindow := some 1,
    matchItem := fun _ _ => none, tr := fun s => s }

/-- An `Activity` holding a title and an icon. -/
def busyActivity : Activity :=
  { m_launchPad := false, m_title := "Old", m_icon := "old-icon", m_pid := 0,
    m_windowClass := "", emitted := [] }

/-! ## The menu bridge (`appmenumodel.cpp`) -/

/-- A reply to `xcb_get_property`: the type and format found, and the items of the
value (`value_len` is their number). -/
structure PropertyReply where
  type : Nat
  format : Nat
  value : List Nat

/-- The X server as seen through one connection. -/
structure XConnection where
  /-- Root window of the first screen, when the setup has a screen. -/
  root : Option Nat
  /-- The reply of `xcb_intern_atom`, when there is one. -/
  internAtom : String → Option Nat
  /-- The reply of `xcb_get_property(window, atom, type)`, when there is one. -/
  getProperty : Nat → Nat → Nat → Option PropertyReply

def XCB_ATOM_STRING : Nat := 31
def XCB_ATOM_WINDOW : Nat := 33

/-- The helper `getWindowPropertyString(id, name)`; the argument `c` is the result of
`qt_x11_connection()`.  The result is the byte array. -/
def getWindowPropertyString (c : Option XConnection) (id : Nat) (name : String) : List Nat :=
  match c with
  | none => []
  | some c =>
    match c.internAtom name with
    | none => []
    | some atom =>
      match c.getProperty id atom XCB_ATOM_STRING with
      | none => []
      | some propertyReply =>
        if propertyReply.type == XCB_ATOM_STRING && propertyReply.format == 8
            && propertyReply.value.length > 0 then
          let len := propertyReply.value.length
          if propertyReply.value.getD (len - 1) 0 != 0 then propertyReply.value.take len
          else propertyReply.value.take (len - 1)
        else []

/-- The helper `getActiveWindow()`: the window named by `_NET_ACTIVE_WINDOW` on the
root window, 0 when unavailable. -/
def getActiveWindow (c : Option XConnection) : Nat :=
  match c with
  | none => 0
  | some c =>
    match c.root with
    | none => 0
    | some root =>
      match c.internAtom "_NET_ACTIVE_WINDOW" with
      | none => 0
      | some atom =>
        match c.getProperty root atom XCB_ATOM_WINDOW with
        | none => 0
        | some propReply =>
          if propReply.value.length == 0 then 0
          else propReply.value.headD 0 % 2 ^ 32

/-- The conversion `QString::fromUtf8` on the single-byte characters that bus names
and object paths are made of. -/
def fromUtf8 (bytes : List Nat) : String :=
  String.mk (bytes.map Char.ofNat)

/-- A top-level action of the imported menu. -/
structure QAction where
  text : String
  deriving DecidableEq, Repr

/-- The imported menu: its list of actions. -/
structure QMenu where
  actions : List QAction
  deriving DecidableEq, Repr

/-- An importer object: its identity and the endpoint it was constructed for. -/
structure CDBusMenuImporter where
  id : Nat
  service : String
  path : String
  deriving DecidableEq, Repr

/-- Signals of `AppMenuModel`. -/
inductive AppMenuSignal
  | modelNeedsUpdate | menuAvailableChanged | visibleChanged | modelReset
  deriving DecidableEq, Repr

/-- A call posted to the event loop with `Qt::QueuedConnection`. -/
inductive QueuedCall
  | update
  | updateMenu (importer : Nat)
  deriving DecidableEq, Repr

/-- The member variables of `AppMenuModel`, the services watched by
`m_serviceWatcher`, and the record of what the model has handed to the event loop:
queued calls, objects given to `deleteLater`, signals emitted (oldest first).
`nextId` is the identity the next constructed importer gets. -/
structure AppMenuModel where
  m_menuAvailable : Bool
  m_updatePending : Bool
  m_visible : Bool
  m_serviceName : String
  m_menuObjectPath : String
  m_menu : Option QMenu
  m_importer : Option CDBusMenuImporter
  watchedServices : List String
  queued : List QueuedCall
  deleteLater : List CDBusMenuImporter
  emitted : List AppMenuSignal
  nextId : Nat
  deriving DecidableEq, Repr

namespace AppMenuModel

/-- The getter `AppMenuModel::menuAvailable`. -/
def menuAvailable (m : AppMenuModel) : Bool := m.m_menuAvailable

/-- The getter `AppMenuModel::visible`. -/
def visible (m : AppMenuModel) : Bool := m.m_visible

/-- The setter `AppMenuModel::setVisible`. -/
def setVisible (m : AppMenuModel) (visible : Bool) : AppMenuModel :=
  if m.m_visible != visible then
    { m with m_visible := visible, emitted := m.emitted ++ [.visibleChanged] }
  else m

/-- The setter `AppMenuModel::setMenuAvailable`. -/
def setMenuAvailable (m : AppMenuModel) (set : Bool) : AppMenuModel :=
  if m.m_menuAvailable != set then
    let m := { m with m_menuAvailable := set }
    let m := setVisible m true
    { m with emitted := m.emitted ++ [.menuAvailableChanged] }
  else m

/-- The statement `emit modelNeedsUpdate()`: the signal, and the slot the constructor
connected to it, which posts `update` unless one is pending. -/
def emitModelNeedsUpdate (m : AppMenuModel) : AppMenuModel :=
  let m := { m with emitted := m.emitted ++ [.modelNeedsUpdate] }
  if !m.m_updatePending then
    { m with m_updatePending := true, queued := m.queued ++ [.update] }
  else m

/-- The function `AppMenuModel::rowCount`. -/
def rowCount (m : AppMenuModel) : Int :=
  if !m.m_menuAvailable || m.m_menu.isNone then 0
  else
    match m.m_menu with
    | some menu => menu.actions.length
    | none => 0

/-- The slot `AppMenuModel::update`. -/
def update (m : AppMenuModel) : AppMenuModel :=
  { m with emitted := m.emitted ++ [.modelReset], m_updatePending := false }

/-- The function `AppMenuModel::updateApplicationMenu`, up to the connections made on
the new importer. -/
def updateApplicationMenu (m : AppMenuModel) (serviceName menuObjectPath : String) :
    AppMenuModel :=
  if m.m_serviceName == serviceName && m.m_menuObjectPath == menuObjectPath then
    match m.m_importer with
    | some importer => { m with queued := m.queued ++ [.updateMenu importer.id] }
    | none => m
  else
    let m := { m with m_serviceName := serviceName, watchedServices := [serviceName] }
    let m := { m with m_menuObjectPath := menuObjectPath }
    let m := match m.m_importer with
      | some importer => { m with deleteLater := m.deleteLater ++ [importer] }
      | none => m
    let importer : CDBusMenuImporter :=
      { id := m.nextId, service := serviceName, path := menuObjectPath }
    { m with m_importer := some importer, nextId := m.nextId + 1,
             queued := m.queued ++ [.updateMenu importer.id] }

/-- The slot `AppMenuModel::onActiveWindowChanged`. -/
def onActiveWindowChanged (c : Option XConnection) (m : AppMenuModel) : AppMenuModel :=
  let active := getActiveWindow c
  if active == 0 then setVisible m false
  else
    let objectPath :=
      fromUtf8 (getWindowPropertyString c active "_KDE_NET_WM_APPMENU_OBJECT_PATH")
    let serviceName :=
      fromUtf8 (getWindowPropertyString c active "_KDE_NET_WM_APPMENU_SERVICE_NAME")
    if !objectPath.isEmpty && !serviceName.isEmpty then
      let m := setMenuAvailable m true
      let m := updateApplicationMenu m serviceName objectPath
      let m := setVisible m true
      emitModelNeedsUpdate m
    else setVisible m false

/-- The slot the constructor connects to `QDBusServiceWatcher::serviceUnregistered`. -/
def serviceUnregistered (m : AppMenuModel) (serviceName : String) : AppMenuModel :=
  if serviceName == m.m_serviceName then
    emitModelNeedsUpdate (setMenuAvailable m false)
  else m

/-- Object identities are handed out in increasing order: the held importer and
those given to `deleteLater` were constructed before `nextId`. -/
def wellFormed (m : AppMenuModel) : Bool :=
  (match m.m_importer with
    | some importer => decide (importer.id < m.nextId)
    | none => true)
  && m.deleteLater.all (fun i => decide (i.id < m.nextId))

end AppMenuModel

/-- A model with an active menu imported from `org.app` at `/menu`. -/
def activeModel : AppMenuModel :=
  { m_menuAvailable := true, m_updatePending := false, m_visible := false,
    m_serviceName := "org.app", m_menuObjectPath := "/menu",
    m_menu := some { actions := [{ text := "File" }, { text := "Edit" }] },
    m_importer := some { id := 0, service := "org.app", path := "/menu" },
    watchedServices := ["org.app"], queued := [], deleteLater := [], emitted := [],
    nextId := 1 }

/-- The bytes of a string, as stored in a window property. -/
def bytesOf (s : String) : List Nat := s.toList.map Char.toNat

/-- A connection on which window 7 is active, with the given values of its two menu
properties (`none`: property not set).  Atoms: 1 active window, 2 object path,
3 service name. -/
def connectionWith (objectPath serviceName : Option String) : XConnection :=
  { root := some 1,
    internAtom := fun name =>
      if name == "_NET_ACTIVE_WINDOW" then some 1
      else if name == "_KDE_NET_WM_APPMENU_OBJECT_PATH" then some 2
      else if name == "_KDE_NET_WM_APPMENU_SERVICE_NAME" then some 3
      else none,
    getProperty := fun window atom _ =>
      if window == 1 && atom == 1 then some { type := XCB_ATOM_WINDOW, format := 32, value := [7] }
      else if window == 7 && atom == 2 then
        match objectPath with
        | some p => some { type := XCB_ATOM_STRING, format := 8, value := bytesOf p }
        | none => some { type := 0, format := 0, value := [] }
      else if window == 7 && atom == 3 then
        match serviceName with
        | some p => some { type := XCB_ATOM_STRING, format := 8, value := bytesOf p }
        | none => some { type := 0, format := 0, value := [] }
      else none }

/-! ## The shell (`statusbar.cpp`) -/

/-- A rectangle as `QRect` stores it: the corner coordinates, both inclusive.
Coordinates are mathematical integers; Qt computes them in `int`, where an overflow
has no defined result. -/
structure QRect where
  x1 : Int
  y1 : Int
  x2 : Int
  y2 : Int
  deriving DecidableEq, Repr

namespace QRect

/-- The constructor `QRect(left, top, width, height)`. -/
def ofSize (left top width height : Int) : QRect :=
  { x1 := left, y1 := top, x2 := left + width - 1, y2 := top + height - 1 }

def x (r : QRect) : Int := r.x1
def y (r : QRect) : Int := r.y1
def top (r : QRect) : Int := r.y1
def width (r : QRect) : Int := r.x2 - r.x1 + 1
def height (r : QRect) : Int := r.y2 - r.y1 + 1

end QRect

/-- The library record `NETExtendedStrut`; its constructor sets every field to 0. -/
structure NETExtendedStrut where
  left_width : Int := 0
  left_start : Int := 0
  left_end : Int := 0
  right_width : Int := 0
  right_start : Int := 0
  right_end : Int := 0
  top_width : Int := 0
  top_start : Int := 0
  top_end : Int := 0
  bottom_width : Int := 0
  bottom_start : Int := 0
  bottom_end : Int := 0
  deriving DecidableEq, Repr

/-- A request sent to the window manager: the calls `KX11Extras::setState(win, state)`,
`KX11Extras::clearState(win, state)`, `KX11Extras::setCurrentDesktop`,
`KX11Extras::forceActiveWindow`, and the move request of `NETRootInfo`.  What the
window manager does with a request is not part of this development. -/
inductive WindowRequest
  | setState (win : Nat) (state : Nat)
  | clearState (win : Nat) (state : Nat)
  | setCurrentDesktop (desktop : Int)
  | forceActiveWindow (win : Nat)
  | moveRequest (win : Nat) (x : Int) (y : Int)
  deriving DecidableEq, Repr

/-- Signals of `StatusBar`. -/
inductive StatusBarSignal
  | screenRectChanged | twentyFourTimeChanged
  deriving DecidableEq, Repr

/-- The shell: its member variables, the identifier and the geometry of its window,
the strut last declared with `setExtendedStrut`, the requests it has sent to the
window manager (oldest first), whether blur-behind was enabled, and the signals
emitted. -/
structure StatusBar where
  m_acticity : Activity
  m_screenRect : QRect
  m_twentyFourTime : Bool
  geometry : QRect
  strut : NETExtendedStrut
  winId : Nat
  requests : List WindowRequest
  blurBehind : Bool
  emitted : List StatusBarSignal

namespace StatusBar

/-- The function `StatusBar::updateViewStruts`; `screenGeometry` is the value of
`screen()->geometry()`. -/
def updateViewStruts (screenGeometry : QRect) (sb : StatusBar) : StatusBar :=
  let rect := sb.geometry
  let topOffset := screenGeometry.top
  let strut : NETExtendedStrut := {}
  let strut := { strut with top_width := rect.height + topOffset - 1 }
  let strut := { strut with top_start := rect.x }
  let strut := { strut with top_end := rect.x + rect.width - 1 }
  { sb with strut := strut }

/-- The function `StatusBar::updateGeometry`; `screenGeometry` is the value of
`screen()->geometry()`. -/
def updateGeometry (screenGeometry : QRect) (sb : StatusBar) : StatusBar :=
  let rect := screenGeometry
  let sb := if sb.m_screenRect != rect then
      { sb with m_screenRect := rect, emitted := sb.emitted ++ [.screenRectChanged] }
    else sb
  let windowRect := QRect.ofSize rect.x rect.y rect.width 25
  let sb := { sb with geometry := windowRect }
  let sb := updateViewStruts screenGeometry sb
  { sb with blurBehind := true }

end StatusBar

/-- A shell, with window 3, that has sent no request yet, with an idle tracker. -/
def freshShell : StatusBar :=
  { m_acticity := busyActivity, m_screenRect := QRect.ofSize 0 0 0 0,
    m_twentyFourTime := false, geometry := QRect.ofSize 0 0 0 0, strut := {},
    winId := 3, requests := [], blurBehind := false, emitted := [] }

/-- The filter of `isAcceptableWindow` in the words of its description: a valid
window, of no ignored type, without the taskbar or pager skip hints, that is either
not transient for another window (`transientFor` is 0, the window itself or the root
window) or transient for a window whose type is none of normal, dialog, utility. -/
def acceptableByDescription (valid : Bool) (type : NET.WindowType)
    (skipTaskbar skipPager : Bool) (wid root transientFor : Nat)
    (parentType : NET.WindowType) : Bool :=
  valid
    && !decide (type ∈ [NET.WindowType.Desktop, .Dock, .Splash, .Toolbar, .Menu, .PopupMenu,
          .Notification])
    && !(skipTaskbar || skipPager)
    && (decide (transientFor = 0 ∨ transientFor = wid ∨ transientFor = root)
        || !decide (parentType ∈ [NET.WindowType.Normal, .Dialog, .Utility]))

/-- The root window `isAcceptableWindow` compares with: that of the native interface,
0 without one. -/
def rootOf (ws : WindowSystem) : Nat :=
  match ws.appRootWindow with
  | some r => r
  | none => 0

/-! ## Example inputs and descriptions used by the theorems -/

/-- The desktop-type foreground window used against C1. -/
def desktopSystem : WindowSystem :=
  oneWindow { plainWindow with windowType := NET.windowTypeOf [.Desktop] }

/-- A dock-type foreground window. -/
def dockSystem : WindowSystem :=
  oneWindow { plainWindow with windowType := NET.windowTypeOf [.Dock] }

/-- A desktop-type window that also carries the taskbar skip hint, in the foreground. -/
def hiddenDesktopSystem : WindowSystem :=
  oneWindow { plainWindow with windowType := NET.windowTypeOf [.Desktop],
                               state := NET.SkipTaskbar }

/-- A normal window with the pager skip hint, in the foreground. -/
def skipPagerSystem : WindowSystem :=
  oneWindow { plainWindow with state := NET.SkipPager }

/-- A registry that knows the class "editor" of process 42. -/
def editorRegistry : Int → String → Option CAppItem :=
  fun pid cls =>
    if pid = 42 ∧ cls = "editor" then some { localName := "Text Editor", icon := "accessories" }
    else none

/-- A normal window of class "Editor" in the foreground, with the registry above. -/
def editorSystem : WindowSystem :=
  { oneWindow { plainWindow with windowClassClass := "Editor" } with
    matchItem := editorRegistry }

/-- The model state apart from the calls waiting on the event loop. -/
def AppMenuModel.withoutQueue (m : AppMenuModel) : AppMenuModel :=
  { m with queued := [] }

/-- The `updateMenu` call that `updateApplicationMenu` posts for a held importer. -/
def AppMenuModel.updateMenuCall (m : AppMenuModel) : List QueuedCall :=
  match m.m_importer with
  | some importer => [.updateMenu importer.id]
  | none => []

/-- The geometry of a monitor placed 100 pixels below the top of the X screen. -/
def loweredMonitor : QRect := QRect.ofSize 0 100 1920 1080

/-- The enumeration `AppMenuRole` of the model's header file: the values of its two
roles, an input of `data`. -/
structure AppMenuRole where
  MenuRole : Int
  ActionRole : Int

/-- A `QVariant` as `data` builds it: the invalid value `QVariant()`, a string, or the
address of an action. -/
inductive QVariant
  | invalid
  | string (s : String)
  | pointer (a : QAction)
  deriving DecidableEq, Repr

/-- The query `QVariant::isValid`. -/
def QVariant.isValid : QVariant → Bool
  | .invalid => false
  | .string _ => true
  | .pointer _ => true

/-- The access `actions.at(row)`: `none` stands for an index outside the list, where
the C++ access has no defined result. -/
def actionAt (actions : List QAction) (row : Int) : Option QAction :=
  if row < 0 then none else actions[row.toNat]?

/-- The function `AppMenuModel::data(index, role)`, with `row` the value of
`index.row()`.  The result `none` stands for an access outside the action list. -/
def AppMenuModel.data (roles : AppMenuRole) (m : AppMenuModel) (row role : Int) :
    Option QVariant :=
  if row < 0 || !m.m_menuAvailable || m.m_menu.isNone then some .invalid
  else
    match m.m_menu with
    | none => some .invalid
    | some menu =>
      let actions := menu.actions
      if row >= actions.length then some .invalid
      else if role == roles.MenuRole then
        (actionAt actions row).map fun a => QVariant.string a.text
      else if role == roles.ActionRole then
        (actionAt actions row).map fun a => QVariant.pointer a
      else some .invalid

/-- The role values used in examples: `Qt::UserRole + 1` and the next one. -/
def userRoles : AppMenuRole := { MenuRole := 257, ActionRole := 258 }

/-- What `move` reads besides the window flags and types: whether the window is on
the current desktop, its desktop, and the cursor position. -/
structure DesktopAndCursor where
  isOnCurrentDesktop : Bool
  desktop : Int
  cursorX : Int
  cursorY : Int

namespace Activity

/-- The function `Activity::restore`: the requests it sends. -/
def restore (ws : WindowSystem) : List WindowRequest :=
  [.clearState ws.activeWindow NET.Max]

/-- The function `Activity::maximize`: the requests it sends. -/
def maximize (ws : WindowSystem) : List WindowRequest :=
  [.setState ws.activeWindow NET.Max]

/-- The expression assigned to the local `isWindow`, written alike in
`toggleMaximize` and in `move`. -/
def isWindow (info : KWindowInfo) : Bool :=
  !info.hasState NET.SkipTaskbar
    || info.windowType NET.UtilityMask != NET.WindowType.Utility
    || info.windowType NET.DesktopMask != NET.WindowType.Desktop

/-- The function `Activity::toggleMaximize`: the requests it sends. -/
def toggleMaximize (ws : WindowSystem) : List WindowRequest :=
  let info := ws.info ws.activeWindow
  let isWindow := isWindow info
  if !isWindow then []
  else
    let isMax := info.hasState NET.Max
    if isMax then restore ws else maximize ws

/-- The function `Activity::move`: the requests it sends. -/
def move (ws : WindowSystem) (d : DesktopAndCursor) : List WindowRequest :=
  let winId := ws.activeWindow
  let info := ws.info winId
  let isWindow := isWindow info
  if !isWindow then []
  else
    let onDesktop : List WindowRequest :=
      if !d.isOnCurrentDesktop then [.setCurrentDesktop d.desktop, .forceActiveWindow winId]
      else []
    match ws.appRootWindow with
    | some _ => onDesktop ++ [.moveRequest winId d.cursorX d.cursorY]
    | none => onDesktop

end Activity

/-- A maximized normal window in the foreground. -/
def maximizedSystem : WindowSystem :=
  oneWindow { plainWindow with state := NET.Max }

/-- A window that declares both the utility and the desktop type and carries the
taskbar skip hint, in the foreground. -/
def twoTypeSystem : WindowSystem :=
  oneWindow { plainWindow with windowType := NET.windowTypeOf [.Utility, .Desktop],
                               state := NET.SkipTaskbar ||| NET.Max }

/-! ## Facts about the library masks -/

theorem typeMatchesMask_desktop (t : NET.WindowType) :
    NET.typeMatchesMask t NET.DesktopMask = decide (t = .Desktop) := by
  cases t <;> decide

theorem typeMatchesMask_ignoreList (t : NET.WindowType) :
    NET.typeMatchesMask t Activity.ignoreList
      = decide (t ∈ [NET.WindowType.Desktop, .Dock, .Splash, .Toolbar, .Menu, .PopupMenu,
          .Notification]) := by
  cases t <;> decide

theorem typeMatchesMask_normal (t : NET.WindowType) :
    NET.typeMatchesMask t Activity.normal
      = decide (t ∈ [NET.WindowType.Normal, .Dialog, .Utility]) := by
  cases t <;> decide

/-! ## The window tracker -/

theorem isAcceptableWindow_eq (ws : WindowSystem) (wid : Nat) :
    Activity.isAcceptableWindow ws wid
      = acceptableByDescription (ws.info wid).valid
          ((ws.info wid).windowType NET.AllTypesMask)
          ((ws.info wid).hasState NET.SkipTaskbar) ((ws.info wid).hasState NET.SkipPager)
          wid (rootOf ws) (ws.info wid).transientFor
          ((ws.info (ws.info wid).transientFor).windowType NET.AllTypesMask) := by
  unfold Activity.isAcceptableWindow acceptableByDescription rootOf
  simp only [typeMatchesMask_ignoreList, typeMatchesMask_normal]
  cases (ws.info wid).valid <;> simp [Bool.and_assoc, Bool.or_assoc]

theorem isAcceptableWindow_ignored (ws : WindowSystem) (wid : Nat)
    (h : (ws.info wid).windowType NET.AllTypesMask
      ∈ [NET.WindowType.Desktop, .Dock, .Splash, .Toolbar, .Menu, .PopupMenu, .Notification]) :
    Activity.isAcceptableWindow ws wid = false := by
  rw [isAcceptableWindow_eq]
  unfold acceptableByDescription
  simp [h]

theorem onActiveWindowChanged_desktop (ws : WindowSystem) (a : Activity)
    (h : (ws.info ws.activeWindow).windowType NET.AllTypesMask = .Desktop) :
    (a.onActiveWindowChanged ws).title = ws.tr "Desktop"
      ∧ (a.onActiveWindowChanged ws).icon = "" := by
  unfold Activity.onActiveWindowChanged Activity.title Activity.icon
  simp [typeMatchesMask_desktop, h]

theorem onActiveWindowChanged_rejected (ws : WindowSystem) (a : Activity)
    (hd : (ws.info ws.activeWindow).windowType NET.AllTypesMask ≠ .Desktop)
    (h : Activity.isAcceptableWindow ws ws.activeWindow = false) :
    (a.onActiveWindowChanged ws).title = "" ∧ (a.onActiveWindowChanged ws).icon = "" := by
  unfold Activity.onActiveWindowChanged Activity.title Activity.icon
  simp [typeMatchesMask_desktop, hd, h, Activity.clearIcon, Activity.clearTitle]

/-- C1, as stated, fails: for a foreground window of desktop type the tracker does not
report an empty title; it reports the (here untranslated) word "Desktop". -/
theorem C1_desktop_title_not_empty :
    (desktopSystem.info desktopSystem.activeWindow).windowType NET.AllTypesMask = .Desktop
      ∧ (busyActivity.onActiveWindowChanged desktopSystem).title = "Desktop"
      ∧ (busyActivity.onActiveWindowChanged desktopSystem).title ≠ "" := by
  decide

/-- C1, amended: for every foreground window whose type is dock, splash, toolbar, menu,
popup-menu or notification, after `onActiveWindowChanged` the reported title and icon
are both the empty string, whatever was held before; for a window of desktop type the
icon is the empty string and the title is the translation of "Desktop". -/
theorem C1_ignored_types_title_icon (ws : WindowSystem) (a : Activity)
    (h : (ws.info ws.activeWindow).windowType NET.AllTypesMask
      ∈ [NET.WindowType.Desktop, .Dock, .Splash, .Toolbar, .Menu, .PopupMenu, .Notification]) :
    (a.onActiveWindowChanged ws).icon = ""
      ∧ (a.onActiveWindowChanged ws).title
          = if (ws.info ws.activeWindow).windowType NET.AllTypesMask = .Desktop
            then ws.tr "Desktop" else "" := by
  by_cases hd : (ws.info ws.activeWindow).windowType NET.AllTypesMask = .Desktop
  · have := onActiveWindowChanged_desktop ws a hd
    simp [hd, this.1, this.2]
  · have := onActiveWindowChanged_rejected ws a hd (isAcceptableWindow_ignored ws _ h)
    simp [hd, this.1, this.2]

/-- C1, amended, at a dock window in the foreground: title and icon are both cleared. -/
theorem C1_ignored_types_title_icon_witness :
    (dockSystem.info dockSystem.activeWindow).windowType NET.AllTypesMask
        ∈ [NET.WindowType.Desktop, .Dock, .Splash, .Toolbar, .Menu, .PopupMenu, .Notification]
      ∧ (busyActivity.onActiveWindowChanged dockSystem).icon = ""
      ∧ (busyActivity.onActiveWindowChanged dockSystem).title = "" :=
  ⟨by decide,
    (C1_ignored_types_title_icon dockSystem busyActivity (by decide)).1,
    (C1_ignored_types_title_icon dockSystem busyActivity (by decide)).2.trans (by decide)⟩

/-- C9, as stated, fails in its last sentence: a desktop-type window is rejected by
`isAcceptableWindow`, yet `onActiveWindowChanged` leaves a non-empty title. -/
theorem C9_rejected_window_keeps_title :
    Activity.isAcceptableWindow hiddenDesktopSystem hiddenDesktopSystem.activeWindow = false
      ∧ (busyActivity.onActiveWindowChanged hiddenDesktopSystem).title ≠ "" := by
  decide

/-- C9, amended: `isAcceptableWindow` is the filter of its description (false for an
invalid window, for a window of an ignored type, for a window with SkipTaskbar or
SkipPager; otherwise true when `transientFor` is 0, the window itself or the root
window, and else true exactly when the transient parent's type is none of normal, dialog,
utility); every foreground window it rejects gets its icon cleared, and its title cleared
unless it is of desktop type, where the title is the translation of "Desktop". -/
theorem C9_isAcceptableWindow_filter (ws : WindowSystem) (wid : Nat) (a : Activity) :
    Activity.isAcceptableWindow ws wid
        = acceptableByDescription (ws.info wid).valid
            ((ws.info wid).windowType NET.AllTypesMask)
            ((ws.info wid).hasState NET.SkipTaskbar) ((ws.info wid).hasState NET.SkipPager)
            wid (rootOf ws) (ws.info wid).transientFor
            ((ws.info (ws.info wid).transientFor).windowType NET.AllTypesMask)
      ∧ (Activity.isAcceptableWindow ws ws.activeWindow = false →
          (a.onActiveWindowChanged ws).icon = ""
            ∧ (a.onActiveWindowChanged ws).title
                = if (ws.info ws.activeWindow).windowType NET.AllTypesMask = .Desktop
                  then ws.tr "Desktop" else "") := by
  refine ⟨isAcceptableWindow_eq ws wid, fun h => ?_⟩
  by_cases hd : (ws.info ws.activeWindow).windowType NET.AllTypesMask = .Desktop
  · have := onActiveWindowChanged_desktop ws a hd
    simp [hd, this.1, this.2]
  · have := onActiveWindowChanged_rejected ws a hd h
    simp [hd, this.1, this.2]

/-- C9, amended, at a normal window with the pager skip hint: it is rejected and its
title and icon are cleared. -/
theorem C9_isAcceptableWindow_filter_witness :
    Activity.isAcceptableWindow skipPagerSystem skipPagerSystem.activeWindow = false
      ∧ (busyActivity.onActiveWindowChanged skipPagerSystem).icon = ""
      ∧ (busyActivity.onActiveWindowChanged skipPagerSystem).title = "" :=
  ⟨by decide,
    ((C9_isAcceptableWindow_filter skipPagerSystem 7 busyActivity).2 (by decide)).1,
    ((C9_isAcceptableWindow_filter skipPagerSystem 7 busyActivity).2 (by decide)).2.trans
      (by decide)⟩

/-- C10: for a foreground window that is not of desktop type, passes
`isAcceptableWindow` and whose class is not in the block list, the registry is asked
with the window's pid and lower-cased class; an entry found gives the title (its local
name) and the icon (its icon); with no entry the title is the window manager's visible
name, and the icon is cleared when that name differs from the previous title and kept
when it equals it. -/
theorem C10_title_icon_resolution (ws : WindowSystem) (a : Activity)
    (hd : (ws.info ws.activeWindow).windowType NET.AllTypesMask ≠ .Desktop)
    (hacc : Activity.isAcceptableWindow ws ws.activeWindow = true)
    (hblock : (ws.info ws.activeWindow).windowClassClass ∉ blockList) :
    match ws.matchItem (ws.info ws.activeWindow).pid
        (QByteArray.toLower (ws.info ws.activeWindow).windowClassClass) with
    | some item =>
        (a.onActiveWindowChanged ws).title = item.localName
          ∧ (a.onActiveWindowChanged ws).icon = item.icon
    | none =>
        (a.onActiveWindowChanged ws).title = (ws.info ws.activeWindow).visibleName
          ∧ (a.onActiveWindowChanged ws).icon
              = if (ws.info ws.activeWindow).visibleName ≠ a.title then "" else a.icon := by
  have hb : blockList.contains (ws.info ws.activeWindow).windowClassClass = false := by
    simpa using hblock
  unfold Activity.onActiveWindowChanged Activity.title Activity.icon
  simp only [typeMatchesMask_desktop, hd, hacc, hb]
  cases hm : ws.matchItem (ws.info ws.activeWindow).pid
      (QByteArray.toLower (ws.info ws.activeWindow).windowClassClass) with
  | some item =>
    by_cases hi : a.m_icon = item.icon <;> simp [hi]
  | none =>
    by_cases ht : (ws.info ws.activeWindow).visibleName = a.m_title <;>
      simp [ht, Activity.clearIcon]

/-- C10 at a window of class "Editor" of process 42: the registry entry of "editor"
gives title and icon. -/
theorem C10_title_icon_resolution_witness :
    (busyActivity.onActiveWindowChanged editorSystem).title = "Text Editor"
      ∧ (busyActivity.onActiveWindowChanged editorSystem).icon = "accessories" :=
  C10_title_icon_resolution editorSystem busyActivity (by decide) (by decide) (by decide)

/-! ## The menu bridge -/

theorem updateApplicationMenu_same (m : AppMenuModel) (serviceName objectPath : String)
    (hs : m.m_serviceName = serviceName) (hp : m.m_menuObjectPath = objectPath) :
    m.updateApplicationMenu serviceName objectPath
      = { m with queued := m.queued ++ m.updateMenuCall } := by
  subst hs hp
  unfold AppMenuModel.updateApplicationMenu AppMenuModel.updateMenuCall
  cases m with
  | mk a b c d e f importer h i j k l => cases importer <;> simp

theorem updateApplicationMenu_stored (m : AppMenuModel) (serviceName objectPath : String) :
    (m.updateApplicationMenu serviceName objectPath).m_serviceName = serviceName
      ∧ (m.updateApplicationMenu serviceName objectPath).m_menuObjectPath = objectPath := by
  unfold AppMenuModel.updateApplicationMenu
  by_cases h : m.m_serviceName = serviceName ∧ m.m_menuObjectPath = objectPath
  · cases hi : m.m_importer <;> simp [h.1, h.2]
  · have h' : (m.m_serviceName == serviceName && m.m_menuObjectPath == objectPath) = false := by
      simpa using h
    cases hi : m.m_importer <;> simp [h']

/-- C2: when the given pair equals the stored pair, `updateApplicationMenu` changes
nothing but the event queue, to which it appends one `updateMenu` call on the
held importer when there is one: stored pair, watched services and importer are unchanged,
nothing is given to `deleteLater` and no importer is constructed.  Apart from the queue,
calling it twice with the same pair gives the state of calling it once, from any
state. -/
theorem C2_same_pair_no_rebuild (m : AppMenuModel) (serviceName objectPath : String)
    (hs : m.m_serviceName = serviceName) (hp : m.m_menuObjectPath = objectPath) :
    (m.updateApplicationMenu serviceName objectPath).withoutQueue = m.withoutQueue
      ∧ (m.updateApplicationMenu serviceName objectPath).queued = m.queued ++ m.updateMenuCall
      ∧ (m.updateApplicationMenu serviceName objectPath).m_serviceName = m.m_serviceName
      ∧ (m.updateApplicationMenu serviceName objectPath).m_menuObjectPath = m.m_menuObjectPath
      ∧ (m.updateApplicationMenu serviceName objectPath).watchedServices = m.watchedServices
      ∧ (m.updateApplicationMenu serviceName objectPath).m_importer = m.m_importer
      ∧ (m.updateApplicationMenu serviceName objectPath).deleteLater = m.deleteLater
      ∧ (m.updateApplicationMenu serviceName objectPath).nextId = m.nextId
      ∧ ∀ m0 : AppMenuModel,
          ((m0.updateApplicationMenu serviceName objectPath).updateApplicationMenu
              serviceName objectPath).withoutQueue
            = (m0.updateApplicationMenu serviceName objectPath).withoutQueue := by
  rw [updateApplicationMenu_same m serviceName objectPath hs hp]
  refine ⟨rfl, rfl, rfl, rfl, rfl, rfl, rfl, rfl, fun m0 => ?_⟩
  have h := updateApplicationMenu_stored m0 serviceName objectPath
  rw [updateApplicationMenu_same _ serviceName objectPath h.1 h.2]
  rfl

/-- C2 at a model holding the endpoint it is given again: the importer is kept and one
call is queued on it. -/
theorem C2_same_pair_no_rebuild_witness :
    (activeModel.updateApplicationMenu "org.app" "/menu").m_importer = activeModel.m_importer
      ∧ (activeModel.updateApplicationMenu "org.app" "/menu").queued = [.updateMenu 0] :=
  ⟨(C2_same_pair_no_rebuild activeModel "org.app" "/menu" (by decide) (by decide)).2.2.2.2.2.1,
    (C2_same_pair_no_rebuild activeModel "org.app" "/menu" (by decide) (by decide)).2.1⟩

theorem setVisible_fields (m : AppMenuModel) (v : Bool) :
    (m.setVisible v).m_visible = v
      ∧ (m.setVisible v).m_menuAvailable = m.m_menuAvailable
      ∧ (m.setVisible v).m_serviceName = m.m_serviceName
      ∧ (m.setVisible v).m_menuObjectPath = m.m_menuObjectPath
      ∧ (m.setVisible v).m_importer = m.m_importer
      ∧ (m.setVisible v).m_menu = m.m_menu := by
  unfold AppMenuModel.setVisible
  by_cases h : m.m_visible = v <;> simp [h]

theorem setMenuAvailable_fields (m : AppMenuModel) (set : Bool) :
    (m.setMenuAvailable set).m_menuAvailable = set
      ∧ (m.setMenuAvailable set).m_visible = (if m.m_menuAvailable = set then m.m_visible else true)
      ∧ (m.setMenuAvailable set).m_menu = m.m_menu := by
  unfold AppMenuModel.setMenuAvailable
  by_cases h : m.m_menuAvailable = set
  · simp [h]
  · simp [h, (setVisible_fields _ true).1, (setVisible_fields _ true).2.1,
      (setVisible_fields _ true).2.2.2.2.2]

theorem emitModelNeedsUpdate_fields (m : AppMenuModel) :
    m.emitModelNeedsUpdate.m_menuAvailable = m.m_menuAvailable
      ∧ m.emitModelNeedsUpdate.m_visible = m.m_visible
      ∧ m.emitModelNeedsUpdate.m_menu = m.m_menu := by
  unfold AppMenuModel.emitModelNeedsUpdate
  cases h : m.m_updatePending <;> simp [h]

theorem rowCount_unavailable (m : AppMenuModel) (h : m.m_menuAvailable = false) :
    m.rowCount = 0 := by
  unfold AppMenuModel.rowCount
  simp [h]

theorem serviceUnregistered_own (m : AppMenuModel) :
    (m.serviceUnregistered m.m_serviceName).m_menuAvailable = false
      ∧ (m.serviceUnregistered m.m_serviceName).m_visible
          = (if m.m_menuAvailable = false then m.m_visible else true) := by
  unfold AppMenuModel.serviceUnregistered
  simp only [beq_self_eq_true, if_true]
  refine ⟨?_, ?_⟩
  · rw [(emitModelNeedsUpdate_fields _).1, (setMenuAvailable_fields _ _).1]
  · rw [(emitModelNeedsUpdate_fields _).2.1, (setMenuAvailable_fields _ _).2.1]

/-- C3: when the service watcher reports the loss of the service named by
`m_serviceName`, `menuAvailable` is false after that one handler invocation and
`rowCount` is 0; when the reported name is another one, `menuAvailable` is unchanged. -/
theorem C3_service_lost_menu_unavailable (m : AppMenuModel) (serviceName : String) :
    (serviceName = m.m_serviceName →
        (m.serviceUnregistered serviceName).menuAvailable = false
          ∧ (m.serviceUnregistered serviceName).rowCount = 0)
      ∧ (serviceName ≠ m.m_serviceName →
        (m.serviceUnregistered serviceName).menuAvailable = m.menuAvailable) := by
  refine ⟨fun h => ?_, fun h => ?_⟩
  · subst h
    exact ⟨(serviceUnregistered_own m).1, rowCount_unavailable _ (serviceUnregistered_own m).1⟩
  · unfold AppMenuModel.serviceUnregistered
    simp [h]

/-- C3 at a model with two menu rows: losing its own service leaves no row, losing
another service changes nothing. -/
theorem C3_service_lost_menu_unavailable_witness :
    activeModel.rowCount = 2
      ∧ (activeModel.serviceUnregistered "org.app").menuAvailable = false
      ∧ (activeModel.serviceUnregistered "org.app").rowCount = 0
      ∧ (activeModel.serviceUnregistered "org.other").menuAvailable = true :=
  ⟨by decide,
    ((C3_service_lost_menu_unavailable activeModel "org.app").1 (by decide)).1,
    ((C3_service_lost_menu_unavailable activeModel "org.app").1 (by decide)).2,
    (C3_service_lost_menu_unavailable activeModel "org.other").2 (by decide)⟩

/-- C4, as stated, fails: with an active menu, after the handler has run for the lost
service the visible flag is true, not false (here it was false before). -/
theorem C4_service_lost_visible_true :
    activeModel.menuAvailable = true
      ∧ activeModel.visible = false
      ∧ (activeModel.serviceUnregistered activeModel.m_serviceName).visible = true := by
  decide

/-- C4, amended: in every model state with `menuAvailable` true, after the
`serviceUnregistered` handler has run for `m_serviceName` the menu is withdrawn through
`menuAvailable`, which is false, and `rowCount`, which is 0, while the visible flag is
true. -/
theorem C4_service_lost_menu_withdrawn (m : AppMenuModel) (h : m.menuAvailable = true) :
    (m.serviceUnregistered m.m_serviceName).menuAvailable = false
      ∧ (m.serviceUnregistered m.m_serviceName).rowCount = 0
      ∧ (m.serviceUnregistered m.m_serviceName).visible = true := by
  have h' : m.m_menuAvailable = true := h
  refine ⟨(serviceUnregistered_own m).1, rowCount_unavailable _ (serviceUnregistered_own m).1, ?_⟩
  unfold AppMenuModel.visible
  rw [(serviceUnregistered_own m).2]
  simp [h']

/-- C4, amended, at a model with an active menu. -/
theorem C4_service_lost_menu_withdrawn_witness :
    activeModel.menuAvailable = true
      ∧ (activeModel.serviceUnregistered "org.app").menuAvailable = false
      ∧ (activeModel.serviceUnregistered "org.app").rowCount = 0
      ∧ (activeModel.serviceUnregistered "org.app").visible = true :=
  ⟨by decide, C4_service_lost_menu_withdrawn activeModel (by decide)⟩

theorem updateApplicationMenu_changed (m : AppMenuModel) (serviceName objectPath : String)
    (hne : m.m_serviceName ≠ serviceName ∨ m.m_menuObjectPath ≠ objectPath) :
    m.updateApplicationMenu serviceName objectPath
      = { m with
          m_serviceName := serviceName, m_menuObjectPath := objectPath,
          watchedServices := [serviceName],
          deleteLater := m.deleteLater ++ m.m_importer.toList,
          m_importer := some { id := m.nextId, service := serviceName, path := objectPath },
          nextId := m.nextId + 1,
          queued := m.queued ++ [.updateMenu m.nextId] } := by
  have h' : (m.m_serviceName == serviceName && m.m_menuObjectPath == objectPath) = false := by
    rcases hne with h | h <;> simp [h]
  unfold AppMenuModel.updateApplicationMenu
  cases m with
  | mk a b c d e f importer h i j k l => cases importer <;> simp_all

theorem updateApplicationMenu_wellFormed (m : AppMenuModel) (serviceName objectPath : String)
    (hwf : m.wellFormed = true) :
    (m.updateApplicationMenu serviceName objectPath).wellFormed = true := by
  by_cases h : m.m_serviceName = serviceName ∧ m.m_menuObjectPath = objectPath
  · rw [updateApplicationMenu_same m _ _ h.1 h.2]
    exact hwf
  · have hne : m.m_serviceName ≠ serviceName ∨ m.m_menuObjectPath ≠ objectPath := by
      by_cases h1 : m.m_serviceName = serviceName
      · exact Or.inr fun h2 => h ⟨h1, h2⟩
      · exact Or.inl h1
    rw [updateApplicationMenu_changed m _ _ hne]
    unfold AppMenuModel.wellFormed at hwf ⊢
    cases hi : m.m_importer with
    | none =>
      simp [hi] at hwf ⊢
      intro i hmem
      exact Nat.lt_succ_of_lt (hwf i hmem)
    | some old =>
      simp [hi] at hwf ⊢
      refine ⟨fun i hmem => Nat.lt_succ_of_lt (hwf.2 i hmem), Nat.lt_succ_of_lt hwf.1⟩

/-- C7: when the given pair differs from the stored pair in at least one component,
after `updateApplicationMenu` the stored pair is the given pair, exactly the given
service is watched, a previously held importer has been given to `deleteLater`, and
the importer held is a newly constructed one, for exactly the given pair, on which
`updateMenu` is queued.  In a state whose object identities are well formed the
new importer is not the previous one and not among those given to `deleteLater`, so
one session is current, and the state reached is well formed again. -/
theorem C7_changed_pair_replaces_session (m : AppMenuModel) (serviceName objectPath : String)
    (hne : m.m_serviceName ≠ serviceName ∨ m.m_menuObjectPath ≠ objectPath) :
    (m.updateApplicationMenu serviceName objectPath).m_serviceName = serviceName
      ∧ (m.updateApplicationMenu serviceName objectPath).m_menuObjectPath = objectPath
      ∧ (m.updateApplicationMenu serviceName objectPath).watchedServices = [serviceName]
      ∧ (m.updateApplicationMenu serviceName objectPath).deleteLater
          = m.deleteLater ++ m.m_importer.toList
      ∧ (∀ old, m.m_importer = some old →
          old ∈ (m.updateApplicationMenu serviceName objectPath).deleteLater)
      ∧ ∃ fresh : CDBusMenuImporter,
          (m.updateApplicationMenu serviceName objectPath).m_importer = some fresh
            ∧ fresh.id = m.nextId
            ∧ fresh.service = serviceName ∧ fresh.path = objectPath
            ∧ (m.updateApplicationMenu serviceName objectPath).queued
                = m.queued ++ [.updateMenu fresh.id]
            ∧ (m.wellFormed = true →
                (∀ old, m.m_importer = some old → old.id ≠ fresh.id)
                  ∧ (∀ old ∈ (m.updateApplicationMenu serviceName objectPath).deleteLater,
                      old.id ≠ fresh.id)
                  ∧ (m.updateApplicationMenu serviceName objectPath).wellFormed = true) := by
  have hwf' := updateApplicationMenu_wellFormed m serviceName objectPath
  rw [updateApplicationMenu_changed m _ _ hne] at hwf' ⊢
  refine ⟨rfl, rfl, rfl, rfl, ?_, ⟨_, rfl, rfl, rfl, rfl, rfl, fun hwf => ⟨?_, ?_, hwf' hwf⟩⟩⟩
  · intro old hold
    simp [hold]
  · intro old hold
    unfold AppMenuModel.wellFormed at hwf
    simp [hold] at hwf
    exact Nat.ne_of_lt hwf.1
  · intro old hold
    unfold AppMenuModel.wellFormed at hwf
    simp only [List.mem_append] at hold
    rcases hold with hold | hold
    · simp only [Bool.and_eq_true, List.all_eq_true, decide_eq_true_eq] at hwf
      exact Nat.ne_of_lt (hwf.2 old hold)
    · cases hi : m.m_importer with
      | none => simp [hi] at hold
      | some imp =>
        simp [hi] at hold hwf
        subst hold
        exact Nat.ne_of_lt hwf.1

/-- C7 at a model whose endpoint changes its object path: the old importer is given to
`deleteLater` and differs from the new one. -/
theorem C7_changed_pair_replaces_session_witness :
    (activeModel.updateApplicationMenu "org.app" "/other").m_menuObjectPath = "/other"
      ∧ (activeModel.updateApplicationMenu "org.app" "/other").watchedServices = ["org.app"]
      ∧ (activeModel.updateApplicationMenu "org.app" "/other").deleteLater
          = [{ id := 0, service := "org.app", path := "/menu" }]
      ∧ (activeModel.updateApplicationMenu "org.app" "/other").m_importer
          = some { id := 1, service := "org.app", path := "/other" } :=
  ⟨(C7_changed_pair_replaces_session activeModel "org.app" "/other" (Or.inr (by decide))).2.1,
    (C7_changed_pair_replaces_session activeModel "org.app" "/other" (Or.inr (by decide))).2.2.1,
    (C7_changed_pair_replaces_session activeModel "org.app" "/other"
      (Or.inr (by decide))).2.2.2.1,
    by decide⟩

theorem updateApplicationMenu_flags (m : AppMenuModel) (serviceName objectPath : String) :
    (m.updateApplicationMenu serviceName objectPath).m_menuAvailable = m.m_menuAvailable
      ∧ (m.updateApplicationMenu serviceName objectPath).m_visible = m.m_visible := by
  by_cases h : m.m_serviceName = serviceName ∧ m.m_menuObjectPath = objectPath
  · rw [updateApplicationMenu_same m _ _ h.1 h.2]
    exact ⟨rfl, rfl⟩
  · have hne : m.m_serviceName ≠ serviceName ∨ m.m_menuObjectPath ≠ objectPath := by
      by_cases h1 : m.m_serviceName = serviceName
      · exact Or.inr fun h2 => h ⟨h1, h2⟩
      · exact Or.inl h1
    rw [updateApplicationMenu_changed m _ _ hne]
    exact ⟨rfl, rfl⟩

/-- C8: if `onActiveWindowChanged` observes no active window (id 0), or an active
window whose object-path property or service-name property is empty, then afterwards
`visible` is false and `menuAvailable`, the stored endpoint pair and the importer are
unchanged; if there is an active window and both properties are non-empty, then
afterwards `menuAvailable` and `visible` are both true. -/
theorem C8_missing_endpoint_hides_menu (c : Option XConnection) (m : AppMenuModel) :
    ((getActiveWindow c = 0
          ∨ (fromUtf8 (getWindowPropertyString c (getActiveWindow c)
                "_KDE_NET_WM_APPMENU_OBJECT_PATH")).isEmpty = true
          ∨ (fromUtf8 (getWindowPropertyString c (getActiveWindow c)
                "_KDE_NET_WM_APPMENU_SERVICE_NAME")).isEmpty = true) →
        (m.onActiveWindowChanged c).visible = false
          ∧ (m.onActiveWindowChanged c).menuAvailable = m.menuAvailable
          ∧ (m.onActiveWindowChanged c).m_serviceName = m.m_serviceName
          ∧ (m.onActiveWindowChanged c).m_menuObjectPath = m.m_menuObjectPath
          ∧ (m.onActiveWindowChanged c).m_importer = m.m_importer)
      ∧ ((getActiveWindow c ≠ 0
          ∧ (fromUtf8 (getWindowPropertyString c (getActiveWindow c)
                "_KDE_NET_WM_APPMENU_OBJECT_PATH")).isEmpty = false
          ∧ (fromUtf8 (getWindowPropertyString c (getActiveWindow c)
                "_KDE_NET_WM_APPMENU_SERVICE_NAME")).isEmpty = false) →
        (m.onActiveWindowChanged c).menuAvailable = true
          ∧ (m.onActiveWindowChanged c).visible = true) := by
  have hide : (m.setVisible false).visible = false
      ∧ (m.setVisible false).menuAvailable = m.menuAvailable
      ∧ (m.setVisible false).m_serviceName = m.m_serviceName
      ∧ (m.setVisible false).m_menuObjectPath = m.m_menuObjectPath
      ∧ (m.setVisible false).m_importer = m.m_importer :=
    ⟨(setVisible_fields m false).1, (setVisible_fields m false).2.1,
      (setVisible_fields m false).2.2.1, (setVisible_fields m false).2.2.2.1,
      (setVisible_fields m false).2.2.2.2.1⟩
  refine ⟨fun h => ?_, fun h => ?_⟩
  · unfold AppMenuModel.onActiveWindowChanged
    by_cases h0 : getActiveWindow c = 0
    · simpa [h0] using hide
    · rcases h with h | h | h
      · exact absurd h h0
      · simpa [h0, h] using hide
      · simpa [h0, h] using hide
  · obtain ⟨h0, hp, hs⟩ := h
    unfold AppMenuModel.onActiveWindowChanged AppMenuModel.menuAvailable AppMenuModel.visible
    simp only [beq_iff_eq, h0, if_false, hp, hs, Bool.not_false, Bool.and_self, if_true]
    refine ⟨?_, ?_⟩
    · rw [(emitModelNeedsUpdate_fields _).1, (setVisible_fields _ true).2.1,
        (updateApplicationMenu_flags _ _ _).1, (setMenuAvailable_fields _ _).1]
    · rw [(emitModelNeedsUpdate_fields _).2.1, (setVisible_fields _ true).1]

/-- C8 at a window without the service-name property, and at a window with both properties. -/
theorem C8_missing_endpoint_hides_menu_witness :
    ((activeModel.onActiveWindowChanged (some (connectionWith (some "/menu") none))).visible
        = false
      ∧ (activeModel.onActiveWindowChanged (some (connectionWith (some "/menu") none))).m_importer
        = activeModel.m_importer)
    ∧ ((activeModel.serviceUnregistered "org.app").onActiveWindowChanged
        (some (connectionWith (some "/menu") (some "org.app")))).menuAvailable = true :=
  ⟨⟨((C8_missing_endpoint_hides_menu (some (connectionWith (some "/menu") none)) activeModel).1
        (Or.inr (Or.inr (by decide)))).1,
      ((C8_missing_endpoint_hides_menu (some (connectionWith (some "/menu") none)) activeModel).1
        (Or.inr (Or.inr (by decide)))).2.2.2.2⟩,
    ((C8_missing_endpoint_hides_menu (some (connectionWith (some "/menu") (some "org.app")))
        (activeModel.serviceUnregistered "org.app")).2 ⟨by decide, by decide, by decide⟩).1⟩

/-! ## The shell -/

/-- C5, as stated, fails: for a monitor whose origin has y = 100 the shell rectangle is
(0, 100, 1920, 25) and the declared top strut is 124 high, not 24. -/
theorem C5_strut_height_counts_offset :
    (freshShell.updateGeometry loweredMonitor).geometry = QRect.ofSize 0 100 1920 25
      ∧ (freshShell.updateGeometry loweredMonitor).strut.top_width = 124
      ∧ (freshShell.updateGeometry loweredMonitor).strut.top_width ≠ 24 := by
  decide

/-- C5, amended: for every monitor geometry with origin (x, y), width W and height H,
`updateGeometry` sets the shell window rectangle to (x, y, W, 25) independently of H,
and `updateViewStruts` then declares a top strut of height 25 + y - 1 (24 when y = 0),
with `top_start` = x and `top_end` = x + W - 1; no other strut is declared. -/
theorem C5_geometry_and_strut (sb : StatusBar) (x y W H : Int) :
    (sb.updateGeometry (QRect.ofSize x y W H)).geometry = QRect.ofSize x y W 25
      ∧ (sb.updateGeometry (QRect.ofSize x y W H)).strut
          = { top_width := 25 + y - 1, top_start := x, top_end := x + W - 1 }
      ∧ (sb.updateGeometry (QRect.ofSize x y W H)).strut.top_width = 24 + y
      ∧ (sb.updateGeometry (QRect.ofSize x y W H)).m_screenRect = QRect.ofSize x y W H := by
  unfold StatusBar.updateGeometry StatusBar.updateViewStruts
  simp only [QRect.ofSize, QRect.x, QRect.y, QRect.width, QRect.height, QRect.top]
  have hw : x + W - 1 - x + 1 = W := by ring
  have hh : y + 25 - 1 - y + 1 + y - 1 = 25 + y - 1 := by ring
  have hh2 : y + 25 - 1 - y + 1 + y - 1 = 24 + y := by ring
  refine ⟨?_, ?_, ?_, ?_⟩
  · simp [hw]
  · simp [hw, hh]
  · simp [hh2]
  · by_cases hr : sb.m_screenRect = { x1 := x, y1 := y, x2 := x + W - 1, y2 := y + H - 1 }
    · simp [hr]
    · simp [hr]

theorem actionAt_in_range (actions : List QAction) (row : Int)
    (h0 : 0 ≤ row) (h1 : row < actions.length) :
    ∃ a, actionAt actions row = some a ∧ actions[row.toNat]? = some a := by
  have hlt : row.toNat < actions.length := by omega
  refine ⟨actions[row.toNat], ?_, List.getElem?_eq_getElem hlt⟩
  unfold actionAt
  rw [if_neg (by omega)]
  exact List.getElem?_eq_getElem hlt

theorem rowCount_eq (m : AppMenuModel) :
    m.rowCount
      = match m.m_menu with
        | some menu => if m.m_menuAvailable = true then (menu.actions.length : Int) else 0
        | none => 0 := by
  unfold AppMenuModel.rowCount
  cases hm : m.m_menu <;> cases ha : m.m_menuAvailable <;> simp

/-- C11: `rowCount` is 0 when `menuAvailable` is false or no menu is held, and otherwise
the number of top-level actions; `data` never reads the action list outside its range
(it always produces a value), the value is valid if and only if `menuAvailable` is
true, a menu is held, 0 <= row < rowCount and the role is MenuRole or ActionRole, and
for MenuRole a valid value is the text of the action at that row. -/
theorem C11_rowCount_and_data (roles : AppMenuRole) (m : AppMenuModel) (row role : Int) :
    ((m.menuAvailable = false ∨ m.m_menu = none) → m.rowCount = 0)
      ∧ (∀ menu, m.menuAvailable = true → m.m_menu = some menu →
          m.rowCount = menu.actions.length)
      ∧ ∃ v, m.data roles row role = some v
          ∧ (v.isValid = true ↔
              (m.menuAvailable = true ∧ m.m_menu.isSome = true ∧ 0 ≤ row ∧ row < m.rowCount
                ∧ (role = roles.MenuRole ∨ role = roles.ActionRole)))
          ∧ (role = roles.MenuRole → v.isValid = true →
              ∃ menu a, m.m_menu = some menu ∧ menu.actions[row.toNat]? = some a
                ∧ v = .string a.text) := by
  rw [rowCount_eq]
  unfold AppMenuModel.menuAvailable AppMenuModel.data
  cases hm : m.m_menu with
  | none =>
    refine ⟨fun _ => rfl, fun menu _ h => ?_, .invalid, ?_, ?_, ?_⟩
    · cases h
    · simp
    · simp [QVariant.isValid]
    · simp [QVariant.isValid]
  | some menu =>
    cases ha : m.m_menuAvailable with
    | false =>
      refine ⟨fun _ => ?_, fun menu2 h _ => ?_, .invalid, ?_, ?_, ?_⟩
      · simp
      · cases h
      · simp
      · simp [QVariant.isValid]
      · simp [QVariant.isValid]
    | true =>
      refine ⟨fun h => ?_, fun menu2 _ h => ?_, ?_⟩
      · simp at h
      · cases h
        simp
      · by_cases h0 : row < 0
        · refine ⟨.invalid, ?_, ?_, ?_⟩
          · simp [h0]
          · simp only [QVariant.isValid, Bool.false_eq_true, false_iff]
            intro h
            omega
          · simp [QVariant.isValid]
        · by_cases h1 : (menu.actions.length : Int) ≤ row
          · refine ⟨.invalid, ?_, ?_, ?_⟩
            · simp [h0, h1]
            · simp only [QVariant.isValid, Bool.false_eq_true, false_iff, if_true]
              intro h
              omega
            · simp [QVariant.isValid]
          · obtain ⟨a, hat, hget⟩ := actionAt_in_range menu.actions row (by omega) (by omega)
            have hrange : 0 ≤ row ∧ row < (menu.actions.length : Int) := by omega
            by_cases hr : role = roles.MenuRole
            · refine ⟨.string a.text, ?_, ?_, ?_⟩
              · simp [h0, h1, hr, hat]
              · simp [QVariant.isValid, hr, hrange.1, hrange.2]
              · intro _ _
                exact ⟨menu, a, rfl, hget, rfl⟩
            · by_cases hr2 : role = roles.ActionRole
              · subst hr2
                refine ⟨.pointer a, ?_, ?_, ?_⟩
                · simp [h0, h1, hr, hat]
                · simp [QVariant.isValid, hrange.1, hrange.2]
                · intro h
                  exact absurd h hr
              · refine ⟨.invalid, ?_, ?_, ?_⟩
                · simp [h0, h1, hr, hr2]
                · simp [QVariant.isValid, hr, hr2]
                · intro h
                  exact absurd h hr

/-- The values of `data` on a model with the rows "File" and "Edit": texts for
MenuRole at rows 0 and 1, the invalid value at row 2, at row -1, for a role that is
neither MenuRole nor ActionRole, and after the service is lost. -/
theorem data_activeModel :
    activeModel.data userRoles 0 257 = some (.string "File")
      ∧ activeModel.data userRoles 1 257 = some (.string "Edit")
      ∧ activeModel.data userRoles 1 258 = some (.pointer { text := "Edit" })
      ∧ activeModel.data userRoles 2 257 = some .invalid
      ∧ activeModel.data userRoles (-1) 257 = some .invalid
      ∧ activeModel.data userRoles 0 0 = some .invalid
      ∧ (activeModel.serviceUnregistered "org.app").data userRoles 0 257 = some .invalid := by
  decide

/-! ## The window controller -/

theorem isWindow_eq_false_iff (info : KWindowInfo) :
    Activity.isWindow info = false
      ↔ (info.hasState NET.SkipTaskbar = true
          ∧ info.windowType NET.UtilityMask = .Utility
          ∧ info.windowType NET.DesktopMask = .Desktop) := by
  unfold Activity.isWindow
  simp [and_assoc]

theorem windowTypeOf_single (t : NET.WindowType) :
    ¬ (NET.windowTypeOf [t] NET.UtilityMask = .Utility
        ∧ NET.windowTypeOf [t] NET.DesktopMask = .Desktop) := by
  cases t <;> decide

/-- C12: the guard `isWindow` of `toggleMaximize` and `move` is a disjunction: it is
false only when the foreground window has SkipTaskbar, answers Utility for the utility
mask and answers Desktop for the desktop mask, all at once, and then neither function
sends a request; for every window that declares a single type the guard is true.  When
the guard is true `toggleMaximize` sends exactly the request of `restore` if the window
has the Max state and exactly the request of `maximize` if not, and the two requests
differ; and `move` goes on: it sends the desktop switch and activation when the window
is not on the current desktop, then the move request at the cursor position when the
X11 interface is present.  So `toggleMaximize` sends nothing exactly when the guard is
false, and so does `move` when the X11 interface is present. -/
theorem C12_isWindow_guard_and_toggle (ws : WindowSystem) (d : DesktopAndCursor) :
    (Activity.isWindow (ws.info ws.activeWindow) = false
        ↔ ((ws.info ws.activeWindow).hasState NET.SkipTaskbar = true
            ∧ (ws.info ws.activeWindow).windowType NET.UtilityMask = .Utility
            ∧ (ws.info ws.activeWindow).windowType NET.DesktopMask = .Desktop))
      ∧ (Activity.isWindow (ws.info ws.activeWindow) = false →
          Activity.toggleMaximize ws = [] ∧ Activity.move ws d = [])
      ∧ (∀ t, (ws.info ws.activeWindow).windowType = NET.windowTypeOf [t] →
          Activity.isWindow (ws.info ws.activeWindow) = true)
      ∧ (Activity.isWindow (ws.info ws.activeWindow) = true →
          ((ws.info ws.activeWindow).hasState NET.Max = true →
              Activity.toggleMaximize ws = [.clearState ws.activeWindow NET.Max])
            ∧ ((ws.info ws.activeWindow).hasState NET.Max = false →
              Activity.toggleMaximize ws = [.setState ws.activeWindow NET.Max]))
      ∧ Activity.restore ws = [.clearState ws.activeWindow NET.Max]
      ∧ Activity.maximize ws = [.setState ws.activeWindow NET.Max]
      ∧ Activity.restore ws ≠ Activity.maximize ws
      ∧ (Activity.isWindow (ws.info ws.activeWindow) = true →
          Activity.move ws d
            = (if d.isOnCurrentDesktop = true then []
                else [.setCurrentDesktop d.desktop, .forceActiveWindow ws.activeWindow])
              ++ (if ws.appRootWindow.isSome = true
                then [.moveRequest ws.activeWindow d.cursorX d.cursorY] else []))
      ∧ (Activity.toggleMaximize ws = []
          ↔ Activity.isWindow (ws.info ws.activeWindow) = false)
      ∧ (ws.appRootWindow.isSome = true →
          (Activity.move ws d = []
            ↔ Activity.isWindow (ws.info ws.activeWindow) = false)) := by
  refine ⟨isWindow_eq_false_iff _, fun h => ?_, fun t ht => ?_,
    fun h => ⟨fun hm => ?_, fun hm => ?_⟩, rfl, rfl, ?_, fun h => ?_, ?_, fun hx => ?_⟩
  · unfold Activity.toggleMaximize Activity.move
    simp [h]
  · cases hw : Activity.isWindow (ws.info ws.activeWindow) with
    | true => rfl
    | false =>
      have h3 := (isWindow_eq_false_iff _).1 hw
      rw [ht] at h3
      exact absurd ⟨h3.2.1, h3.2.2⟩ (windowTypeOf_single t)
  · unfold Activity.toggleMaximize Activity.restore
    simp [h, hm]
  · unfold Activity.toggleMaximize Activity.maximize
    simp [h, hm]
  · unfold Activity.restore Activity.maximize
    simp
  · unfold Activity.move
    cases hr : ws.appRootWindow <;> cases hd : d.isOnCurrentDesktop <;> simp [h]
  · unfold Activity.toggleMaximize Activity.restore Activity.maximize
    cases hw : Activity.isWindow (ws.info ws.activeWindow) <;>
      cases hm : (ws.info ws.activeWindow).hasState NET.Max <;> simp [hw, hm]
  · unfold Activity.move
    cases hw : Activity.isWindow (ws.info ws.activeWindow) <;>
      cases hr : ws.appRootWindow <;> simp_all

/-- C12 at a maximized normal window, at a plain normal window, and at a window with
SkipTaskbar that declares both the utility and the desktop type. -/
theorem C12_isWindow_guard_and_toggle_witness :
    Activity.toggleMaximize maximizedSystem = [.clearState 7 NET.Max]
      ∧ Activity.toggleMaximize (oneWindow plainWindow) = [.setState 7 NET.Max]
      ∧ Activity.toggleMaximize twoTypeSystem = []
      ∧ Activity.move twoTypeSystem
          { isOnCurrentDesktop := true, desktop := 1, cursorX := 10, cursorY := 10 } = []
      ∧ Activity.move maximizedSystem
          { isOnCurrentDesktop := false, desktop := 2, cursorX := 10, cursorY := 20 }
          = [.setCurrentDesktop 2, .forceActiveWindow 7, .moveRequest 7 10 20] :=
  ⟨((C12_isWindow_guard_and_toggle maximizedSystem
        { isOnCurrentDesktop := true, desktop := 1, cursorX := 10, cursorY := 10 }).2.2.2.1
      (by decide)).1 (by decide),
    ((C12_isWindow_guard_and_toggle (oneWindow plainWindow)
        { isOnCurrentDesktop := true, desktop := 1, cursorX := 10, cursorY := 10 }).2.2.2.1
      (by decide)).2 (by decide),
    ((C12_isWindow_guard_and_toggle twoTypeSystem
        { isOnCurrentDesktop := true, desktop := 1, cursorX := 10, cursorY := 10 }).2.1
      (by decide)).1,
    ((C12_isWindow_guard_and_toggle twoTypeSystem
        { isOnCurrentDesktop := true, desktop := 1, cursorX := 10, cursorY := 10 }).2.1
      (by decide)).2,
    ((C12_isWindow_guard_and_toggle maximizedSystem
        { isOnCurrentDesktop := false, desktop := 2, cursorX := 10, cursorY := 20
          }).2.2.2.2.2.2.2.1 (by decide)).trans (by decide)⟩
